import Mathlib

/-!
Shallow embedding of `src/main.py` of kashiwade-ffmpeg-util: the configuration
data model, the startup checks, the template substitution of the interactive
execute step, and the scripted and interactive run pipelines. Console output is
modelled as the message strings a run produces, `subprocess.run` as the list of
argument vectors spawned, and `exit(n)` as an explicit exit code.
-/

namespace Kffmpeg

/-- One flag/value pair, `Option` in `main.py` (renamed here because `Option`
collides with Lean core). The value is carried as the string Python would
interpolate into the joined option text. -/
structure Opt where
  flag : String
  value : String
deriving DecidableEq

/-- A command preset, `Command` in `main.py`. -/
structure Command where
  title : String
  options : List Opt
  output_extension : String
  output_filename_suffix : String
  command : List String
deriving DecidableEq

/-- The loaded configuration, `Config` in `main.py`. -/
structure Config where
  ffmpeg_path : String
  commands : List Command
deriving DecidableEq

/-- The two scripting arguments of the argparse surface (`args.hash` and
`args.input_path`); each is absent (`none`) or a string. -/
structure Args where
  hash : Option String
  input_path : Option String
deriving DecidableEq

/-- The ffmpeg-path placeholder token of the templates (curly braces written as
hex escapes). -/
def ph_ffmpeg : String := "\x7b\x7bffmpeg_path\x7d\x7d"

/-- The input-path placeholder token. -/
def ph_input : String := "\x7b\x7binput_path\x7d\x7d"

/-- The output-path placeholder token. -/
def ph_output : String := "\x7b\x7boutput_path\x7d\x7d"

/-- The options placeholder token. -/
def ph_options : String := "\x7b\x7boptions\x7d\x7d"

/-- Joins the options into one string of flag-space-value pairs separated by
single spaces, in option order (main.py lines 251 and 263-265). -/
def joinOptions (opts : List Opt) : String :=
  String.intercalate " " (opts.map (fun o => o.flag ++ " " ++ o.value))

/-- Replace the first occurrence of `ph` in `l` by `v`; `none` when `ph` is
absent. This models the Python idiom of assigning through `list.index`, whose
`ValueError` on a missing token becomes `none` (main.py lines 260-265). -/
def substOne : List String → String → String → Option (List String)
  | [], _, _ => none
  | t :: ts, ph, v =>
    if t = ph then some (v :: ts)
    else Option.map (fun r => t :: r) (substOne ts ph v)

/-- The four in-place substitutions of the interactive execute step, in source
order: ffmpeg path, input path, output path, then the joined options
(main.py lines 259-265). -/
def render (template : List String) (f i o : String) (opts : List Opt) :
    Option (List String) :=
  (substOne template ph_ffmpeg f).bind (fun t1 =>
  (substOne t1 ph_input i).bind (fun t2 =>
  (substOne t2 ph_output o).bind (fun t3 =>
  substOne t3 ph_options (joinOptions opts))))

/-- Pointwise substitution: a token equal to `ph` becomes `v`, anything else is
untouched. -/
def substFun (ph v t : String) : String := if t = ph then v else t

/-- The substitution described by the spec: each placeholder token goes to its
resolved value and every other token is untouched. -/
def spec_substitution (f i o : String) (opts : List Opt) (tok : String) : String :=
  if tok = ph_ffmpeg then f
  else if tok = ph_input then i
  else if tok = ph_output then o
  else if tok = ph_options then joinOptions opts
  else tok

/-- The single preset of the default configuration written by `create_config`
(main.py lines 65-91). -/
def default_preset : Command :=
  { title := "Make video lighter by using h264_nvenc CQ 32",
    options := [{ flag := "-cq", value := "32" },
                { flag := "-c:v", value := "h264_nvenc" }],
    output_extension := ".mp4",
    output_filename_suffix := "_light",
    command := [ph_ffmpeg, "-i", ph_input, ph_options, ph_output] }

/-- The default configuration written by `create_config` (main.py lines 65-91). -/
def default_config : Config :=
  { ffmpeg_path := "/usr/bin/ffmpeg", commands := [default_preset] }

/-- The pieces of the outside world the startup checks consult: whether
`config.yaml` exists next to the program, the configuration it stores, and
which paths `os.path.isfile` affirms. -/
structure Env where
  configFileExists : Bool
  storedConfig : Config
  isFile : String → Bool

/-- `check_config` (main.py lines 49-63): the assigned `self.result` is the bare
existence bit; when the file is missing, a default one is created on disk as a
side effect before the failure is recorded. -/
def check_config (env : Env) : Bool := env.configFileExists

/-- `load_config` (main.py lines 93-95): when the file was just created by
`check_config`, the loaded value is the default configuration. -/
def load_config (env : Env) : Config :=
  if env.configFileExists then env.storedConfig else default_config

/-- `check_args` (main.py lines 100-113). -/
def check_args (a : Args) : Bool :=
  if a.hash.isSome && a.input_path.isNone then false
  else if (!a.hash.isSome) && a.input_path.isSome then false
  else true

/-- `check_ffmpeg_executable` (main.py lines 115-125). -/
def check_ffmpeg_executable (env : Env) (cfg : Config) : Bool :=
  env.isFile cfg.ffmpeg_path

/-- `StartupChecker.__init__` (main.py lines 29-35): the steps run in order and
each check ASSIGNS `self.result`, so every assignment overwrites the previous
one; the verdict the class exposes is whatever the last check stored. -/
def startup_result (env : Env) (a : Args) : Bool :=
  let result := check_config env
  let cfg := load_config env
  let result := check_args a
  let result := check_ffmpeg_executable env cfg
  result

/-- The `__main__` gate (main.py lines 299-304): continue (`none`) when the
verdict holds, terminate with exit status 1 (`some 1`) otherwise. -/
def startup_gate (env : Env) (a : Args) : Option Nat :=
  if startup_result env a then none else some 1

/-- Derived preset hash: the first 8 hex characters of the SHA-256 hex digest
of the title. The digest itself is computed by the external `hashlib` library,
so it enters the model as the function argument `sha` standing for
`lambda s: hashlib.sha256(s.encode()).hexdigest()`. -/
def preset_hash (sha : String → String) (title : String) : String :=
  String.mk ((sha title).data.take 8)

/-- Scripted branch of `__choose_command` (main.py lines 157-165): the first
preset in configured order whose derived hash equals the argument exactly. -/
def choose_command_scripted (sha : String → String) (cfg : Config) (h : String) :
    Option Command :=
  cfg.commands.find? (fun c => preset_hash sha c.title == h)

/-- POSIX `os.path.join` restricted to two components, as used at
main.py lines 214-217 and 222-239. -/
def joinPath (a b : String) : String :=
  if b.data.head? = some '/' then b
  else if a = "" || a.data.getLast? = some '/' then a ++ b
  else a ++ "/" ++ b

/-- Index of the last occurrence of `c` in `cs`, Python `str.rfind` restricted
to a hit/miss answer. -/
def lastIndexOf (cs : List Char) (c : Char) : Option Nat :=
  match cs.reverse.findIdx? (fun x => x == c) with
  | some j => some (cs.length - 1 - j)
  | none => none

/-- POSIX `os.path.splitext`: split at the last dot of the final path
component, unless that component consists of leading dots only up to that
dot. -/
def splitext (p : String) : String × String :=
  let cs := p.data
  let sepI : Int :=
    match lastIndexOf cs '/' with
    | some n => (n : Int)
    | none => -1
  let dotI : Int :=
    match lastIndexOf cs '.' with
    | some n => (n : Int)
    | none => -1
  if sepI < dotI then
    let base := (cs.take dotI.toNat).drop (sepI + 1).toNat
    if base.any (fun c => c != '.') then
      (String.mk (cs.take dotI.toNat), String.mk (cs.drop dotI.toNat))
    else (p, "")
  else (p, "")

/-- Scripted branch of `__gen_output_path` (main.py lines 213-217): the current
working directory joined with the input stem followed by the preset suffix and
extension. -/
def gen_output_path_scripted (cwd : String) (cmd : Command) (input_path : String) :
    String :=
  joinPath cwd
    ((splitext input_path).1 ++ cmd.output_filename_suffix ++ cmd.output_extension)

/-- Interactive branch of `__gen_output_path` (main.py lines 218-239): the
default path is offered; answering "n" substitutes the literal operator-typed
path, any other answer keeps the default. -/
def gen_output_path_interactive (cwd : String) (cmd : Command) (input_path : String)
    (choice : String) (newPath : String) : String :=
  if choice = "n" then newPath
  else gen_output_path_scripted cwd cmd input_path

/-- `options[choice]["value"] = new_value` (main.py line 207); an out-of-range
index raises in Python and becomes `none`. The flag of the edited entry is
untouched. -/
def set_option_value (opts : List Opt) (i : Nat) (v : String) : Option (List Opt) :=
  match opts.get? i with
  | some o => some (opts.set i { o with value := v })
  | none => none

/-- `__modify_options` (main.py lines 189-210) driven by the operator's
answers: each recursion step that answered "n" contributes one (index, new
value) edit, and the final "y" returns the list. -/
def modify_options (opts : List Opt) : List (Nat × String) → Option (List Opt)
  | [] => some opts
  | (i, v) :: rest =>
    match set_option_value opts i v with
    | some opts1 => modify_options opts1 rest
    | none => none

/-- The observable outcome of a scripted run: argument vectors handed to
`subprocess.run`, the exit status, and the system messages printed. -/
structure ScriptedRun where
  spawned : List (List String)
  exitCode : Nat
  messages : List String
deriving DecidableEq

/-- `Runner.run` in scripted mode (main.py lines 146-154 taking the scripted
branches, and `__execute_command` lines 244-256): the hash is resolved, the
options are used as configured, the default output path is taken, and the
executor receives the literally assembled five-token vector; on a hash miss the
process prints a diagnostic and exits 1 without spawning anything. -/
def run_scripted (sha : String → String) (cfg : Config) (h input_path cwd : String) :
    ScriptedRun :=
  match choose_command_scripted sha cfg h with
  | none => { spawned := [], exitCode := 1, messages := ["Hash not found."] }
  | some cmd =>
    { spawned := [[cfg.ffmpeg_path, "-i", input_path,
                   joinOptions cmd.options,
                   gen_output_path_scripted cwd cmd input_path]],
      exitCode := 0,
      messages := ["Executing command...", "Done."] }

/-- The observable outcome of the interactive execute step. -/
structure InteractiveExec where
  spawned : List (List String)
  finalMessage : String
  exitCode : Nat
  presetAfter : Command
deriving DecidableEq

/-- Interactive branch of `__execute_command` (main.py lines 257-275): the
template list is rewritten in place, so the selected preset's `command` list
now holds the rendered vector; the operator is asked and only the exact answer
"y" spawns the child; either way the branch falls through to a normal exit 0. -/
def execute_command_interactive (cfg : Config) (cmd : Command) (input_path : String)
    (opts : List Opt) (output_path : String) (choice : String) :
    Option InteractiveExec :=
  (render cmd.command cfg.ffmpeg_path input_path output_path opts).map (fun cl =>
    { spawned := if choice = "y" then [cl] else [],
      finalMessage := if choice = "y" then "Done." else "Aborted.",
      exitCode := 0,
      presetAfter := { cmd with command := cl } })

/-- The operator's scripted answers for one fully interactive run. -/
structure InteractiveScript where
  choiceIdx : Nat
  input_path : String
  edits : List (Nat × String)
  outputChoice : String
  outputPath : String
  execChoice : String

/-- `Runner.run` in fully interactive mode (main.py lines 146-154 with the
interactive branches of each step). The returned `Config` is the post-run state
of the loaded configuration, reflecting the in-place mutations of the selected
preset's option values and of its `command` list. -/
def run_interactive (cwd : String) (cfg : Config) (s : InteractiveScript) :
    Option (Config × InteractiveExec) :=
  (cfg.commands.get? s.choiceIdx).bind (fun cmd0 =>
  (modify_options cmd0.options s.edits).bind (fun opts =>
    let cmd1 : Command := { cmd0 with options := opts }
    let output := gen_output_path_interactive cwd cmd1 s.input_path
      s.outputChoice s.outputPath
    (execute_command_interactive cfg cmd1 s.input_path opts output
      s.execChoice).map (fun ex =>
      ({ cfg with commands := cfg.commands.set s.choiceIdx ex.presetAfter }, ex))))

/-! ## Concrete fixtures used by the concrete scenarios -/

/-- A filesystem predicate affirming exactly the default ffmpeg path. -/
def default_isFile : String → Bool := fun p => p == "/usr/bin/ffmpeg"

/-- Startup environment with `config.yaml` absent and the (freshly created)
default ffmpeg path present on disk. -/
def c1_env : Env :=
  { configFileExists := false, storedConfig := default_config,
    isFile := default_isFile }

/-- Startup environment with `config.yaml` present and valid and the ffmpeg
path present on disk. -/
def c3_env : Env :=
  { configFileExists := true, storedConfig := default_config,
    isFile := default_isFile }

/-- The preset of the spec's output-path scenario, titled Light. -/
def light_preset : Command :=
  { title := "Light",
    options := [{ flag := "-cq", value := "32" }],
    output_extension := ".mp4",
    output_filename_suffix := "_light",
    command := [ph_ffmpeg, "-i", ph_input, ph_options, ph_output] }

/-- A configuration holding only the Light preset. -/
def light_config : Config :=
  { ffmpeg_path := "/usr/bin/ffmpeg", commands := [light_preset] }

/-- A preset whose template holds each placeholder exactly once but also a
literal extra token. -/
def y_preset : Command :=
  { title := "T",
    options := [{ flag := "-cq", value := "32" }],
    output_extension := ".mp4",
    output_filename_suffix := "_x",
    command := [ph_ffmpeg, "-y", "-i", ph_input, ph_options, ph_output] }

/-- A configuration holding only `y_preset`. -/
def y_config : Config :=
  { ffmpeg_path := "/usr/bin/ffmpeg", commands := [y_preset] }

/-- A degenerate stand-in digest function for concrete scenarios (the model's
theorems are quantified over every digest function). -/
def const_sha : String → String := fun _ => "aaaaaaaa"

/-- A configuration with no presets at all. -/
def empty_config : Config :=
  { ffmpeg_path := "/usr/bin/ffmpeg", commands := [] }

/-- The interactive execute outcome when the operator answers something other
than the exact string "y" at the final confirmation of a Light-preset run. -/
def c10_exec_result : InteractiveExec :=
  { spawned := [], finalMessage := "Aborted.", exitCode := 0,
    presetAfter := { light_preset with command :=
      ["/usr/bin/ffmpeg", "-i", "clip.mov", "-cq 32", "/out/clip_light.mp4"] } }

/-- Operator answers: select preset 0, input clip.mov, no option edits, accept
the default output path, refuse execution. -/
def c4_script : InteractiveScript :=
  { choiceIdx := 0, input_path := "clip.mov", edits := [], outputChoice := "y",
    outputPath := "", execChoice := "n" }

/-- Operator answers: select preset 0, input clip.mov, set option 0 to 40,
accept the default output path, confirm execution. -/
def c4_script_w : InteractiveScript :=
  { choiceIdx := 0, input_path := "clip.mov", edits := [(0, "40")],
    outputChoice := "y", outputPath := "", execChoice := "y" }

/-- The state of the selected preset after the `c4_script_w` run: option 0
edited to 40 and the command list overwritten by the rendered vector. -/
def c4_preset_after : Command :=
  { title := "Make video lighter by using h264_nvenc CQ 32",
    options := [{ flag := "-cq", value := "40" },
                { flag := "-c:v", value := "h264_nvenc" }],
    output_extension := ".mp4",
    output_filename_suffix := "_light",
    command := ["/usr/bin/ffmpeg", "-i", "clip.mov", "-cq 40 -c:v h264_nvenc",
                "/out/clip_light.mp4"] }

/-- The configuration state after the `c4_script_w` run. -/
def c4_cfg_after : Config :=
  { ffmpeg_path := "/usr/bin/ffmpeg", commands := [c4_preset_after] }

/-- The execute outcome of the `c4_script_w` run. -/
def c4_exec_after : InteractiveExec :=
  { spawned := [["/usr/bin/ffmpeg", "-i", "clip.mov", "-cq 40 -c:v h264_nvenc",
                 "/out/clip_light.mp4"]],
    finalMessage := "Done.", exitCode := 0, presetAfter := c4_preset_after }

/-! ## Helper lemmas about `substOne` -/

lemma map_substFun_of_not_mem {ph v : String} {l : List String} (h : ph ∉ l) :
    l.map (substFun ph v) = l := by
  induction l with
  | nil => rfl
  | cons t ts ih =>
    simp only [List.mem_cons, not_or] at h
    have ht : t ≠ ph := fun e => h.1 e.symm
    simp [substFun, ht, ih h.2]

lemma substOne_eq_map (v : String) {ph : String} {l : List String}
    (h : l.count ph = 1) :
    substOne l ph v = some (l.map (substFun ph v)) := by
  induction l with
  | nil => simp at h
  | cons t ts ih =>
    by_cases ht : t = ph
    · subst ht
      rw [List.count_cons] at h
      simp only [beq_self_eq_true, if_true] at h
      have h0 : ts.count t = 0 := by omega
      have hnm : t ∉ ts := List.count_eq_zero.mp h0
      simp [substOne, substFun, map_substFun_of_not_mem hnm]
    · rw [List.count_cons] at h
      have hb : (t == ph) = false := by simp [ht]
      rw [hb] at h
      simp at h
      simp [substOne, ht, substFun, ih h]

lemma count_map_substFun {ph v y : String} (h1 : y ≠ ph) (h2 : y ≠ v)
    (l : List String) :
    (l.map (substFun ph v)).count y = l.count y := by
  induction l with
  | nil => rfl
  | cons t ts ih =>
    by_cases ht : t = ph
    · subst ht
      have hv : (v == y) = false := by simp [Ne.symm h2]
      have htt : (t == y) = false := by simp [Ne.symm h1]
      simp [substFun, List.count_cons, hv, htt, ih]
    · simp [substFun, ht, List.count_cons, ih]

lemma substOne_isSome (ph v : String) (l : List String) :
    (substOne l ph v).isSome ↔ ph ∈ l := by
  induction l with
  | nil => simp [substOne]
  | cons t ts ih =>
    by_cases ht : t = ph
    · subst ht; simp [substOne]
    · rw [substOne]
      simp only [if_neg ht]
      cases hs : substOne ts ph v with
      | none => simp [hs] at ih; simp [List.mem_cons, ih, Ne.symm ht]
      | some r => simp [hs] at ih; simp [List.mem_cons, ih, Ne.symm ht]

lemma substOne_some_mem {ph v : String} {l l2 : List String}
    (h : substOne l ph v = some l2) : ph ∈ l := by
  have hs : (substOne l ph v).isSome := by simp [h]
  exact (substOne_isSome ph v l).mp hs

lemma mem_substOne_preserve {ph v x : String} {l l2 : List String}
    (h : substOne l ph v = some l2) (hx : x ∈ l) (hne : x ≠ ph) : x ∈ l2 := by
  induction l generalizing l2 with
  | nil => simp at hx
  | cons t ts ih =>
    by_cases ht : t = ph
    · simp only [substOne, if_pos ht, Option.some.injEq] at h
      subst h
      rcases List.mem_cons.mp hx with he | hm
      · exact absurd (he.trans ht) hne
      · exact List.mem_cons_of_mem _ hm
    · simp only [substOne, if_neg ht] at h
      rcases Option.map_eq_some'.mp h with ⟨r, hr, he⟩
      subst he
      rcases List.mem_cons.mp hx with he | hm
      · exact he ▸ List.mem_cons_self _ _
      · exact List.mem_cons_of_mem _ (ih hr hm)

lemma mem_of_mem_substOne {ph v x : String} {l l2 : List String}
    (h : substOne l ph v = some l2) (hx : x ∈ l2) : x ∈ l ∨ x = v := by
  induction l generalizing l2 with
  | nil => simp [substOne] at h
  | cons t ts ih =>
    by_cases ht : t = ph
    · simp only [substOne, if_pos ht, Option.some.injEq] at h
      subst h
      rcases List.mem_cons.mp hx with he | hm
      · exact Or.inr he
      · exact Or.inl (List.mem_cons_of_mem _ hm)
    · simp only [substOne, if_neg ht] at h
      rcases Option.map_eq_some'.mp h with ⟨r, hr, he⟩
      subst he
      rcases List.mem_cons.mp hx with he | hm
      · exact Or.inl (he ▸ List.mem_cons_self _ _)
      · rcases ih hr hm with hm2 | hv
        · exact Or.inl (List.mem_cons_of_mem _ hm2)
        · exact Or.inr hv

lemma ph_pairwise_ne :
    ph_ffmpeg ≠ ph_input ∧ ph_ffmpeg ≠ ph_output ∧ ph_ffmpeg ≠ ph_options ∧
    ph_input ≠ ph_output ∧ ph_input ≠ ph_options ∧ ph_output ≠ ph_options := by
  refine ⟨?_, ?_, ?_, ?_, ?_, ?_⟩ <;> decide

lemma find?_eq_some_first {α : Type} {p : α → Bool} :
    ∀ {l : List α} {a : α}, l.find? p = some a →
      p a = true ∧ ∃ l1 l2, l = l1 ++ a :: l2 ∧ ∀ x ∈ l1, p x = false := by
  intro l
  induction l with
  | nil => intro a h; simp at h
  | cons x xs ih =>
    intro a h
    cases hp : p x with
    | true =>
      rw [List.find?_cons_of_pos _ hp] at h
      obtain rfl := Option.some.inj h
      exact ⟨hp, [], xs, rfl, by simp⟩
    | false =>
      rw [List.find?_cons_of_neg _ (by simp [hp])] at h
      obtain ⟨hpa, l1, l2, he, hall⟩ := ih h
      refine ⟨hpa, x :: l1, l2, by rw [he]; rfl, ?_⟩
      intro z hz
      rcases List.mem_cons.mp hz with rfl | hm
      · exact hp
      · exact hall z hm

lemma set_self {α : Type} :
    ∀ (l : List α) (i : Nat) (x : α), l.get? i = some x → l.set i x = l := by
  intro l
  induction l with
  | nil => intro i x h; simp at h
  | cons y ys ih =>
    intro i x h
    cases i with
    | zero =>
      rw [List.get?_cons_zero] at h
      obtain rfl := Option.some.inj h
      rfl
    | succ n =>
      rw [List.get?_cons_succ] at h
      show y :: ys.set n x = y :: ys
      rw [ih n x h]

lemma get?_some_lt {α : Type} {l : List α} {i : Nat} {x : α}
    (h : l.get? i = some x) : i < l.length := by
  by_contra hn
  rw [List.get?_eq_none.mpr (Nat.le_of_not_lt hn)] at h
  exact Option.noConfusion h

lemma set_option_value_flags {opts opts2 : List Opt} {i : Nat} {v : String}
    (h : set_option_value opts i v = some opts2) :
    opts2.map Opt.flag = opts.map Opt.flag := by
  unfold set_option_value at h
  cases hg : opts.get? i with
  | none => rw [hg] at h; exact Option.noConfusion h
  | some o =>
    rw [hg] at h
    obtain rfl := Option.some.inj h
    rw [List.map_set]
    exact set_self (opts.map Opt.flag) i o.flag
      (by rw [List.get?_map, hg]; rfl)

lemma modify_options_flags :
    ∀ (edits : List (Nat × String)) (opts opts2 : List Opt),
      modify_options opts edits = some opts2 →
      opts2.map Opt.flag = opts.map Opt.flag := by
  intro edits
  induction edits with
  | nil =>
    intro opts opts2 h
    simp [modify_options] at h
    rw [h]
  | cons e rest ih =>
    intro opts opts2 h
    obtain ⟨i, v⟩ := e
    unfold modify_options at h
    cases hs : set_option_value opts i v with
    | none => rw [hs] at h; exact Option.noConfusion h
    | some opts1 =>
      rw [hs] at h
      exact (ih opts1 opts2 h).trans (set_option_value_flags hs)

lemma render_default_shape (f i o : String) (opts : List Opt)
    (hf1 : f ≠ ph_input) (hf2 : f ≠ ph_output) (hf3 : f ≠ ph_options)
    (hi1 : i ≠ ph_output) (hi2 : i ≠ ph_options) :
    render [ph_ffmpeg, "-i", ph_input, ph_options, ph_output] f i o opts =
      some [f, "-i", i, joinOptions opts, o] := by
  obtain ⟨d1, d2, d3, d4, d5, d6⟩ := ph_pairwise_ne
  have n1 : ("-i" : String) ≠ ph_input := by decide
  have n2 : ("-i" : String) ≠ ph_output := by decide
  have n3 : ("-i" : String) ≠ ph_options := by decide
  simp [render, substOne, hf1, hf2, hf3, hi1, hi2, n1, n2, n3,
    Ne.symm d4, Ne.symm d5, d6, Ne.symm d6]

/-- C5 (amended): for every template containing each of the four placeholder
tokens exactly once, and resolved path values that are not themselves
placeholder tokens substituted later (ffmpeg path not the input/output/options
token, input path not the output/options token, output path not the options
token), rendering produces exactly the pointwise substitution: an argument
vector of the template's length in which each placeholder is replaced by its
resolved value (the options placeholder by the flag-value pairs joined with
single spaces in option order) and every other token is unchanged in its
original position. -/
theorem c5_render_pointwise
    (t : List String) (f i o : String) (opts : List Opt)
    (h1 : t.count ph_ffmpeg = 1) (h2 : t.count ph_input = 1)
    (h3 : t.count ph_output = 1) (h4 : t.count ph_options = 1)
    (hf1 : f ≠ ph_input) (hf2 : f ≠ ph_output) (hf3 : f ≠ ph_options)
    (hi1 : i ≠ ph_output) (hi2 : i ≠ ph_options)
    (ho1 : o ≠ ph_options) :
    render t f i o opts = some (t.map (spec_substitution f i o opts)) ∧
    (t.map (spec_substitution f i o opts)).length = t.length := by
  have e1 := substOne_eq_map f h1
  have c2 : (t.map (substFun ph_ffmpeg f)).count ph_input = 1 := by
    rw [count_map_substFun (by decide) (Ne.symm hf1)]
    exact h2
  have e2 := substOne_eq_map i c2
  have c3 : ((t.map (substFun ph_ffmpeg f)).map (substFun ph_input i)).count
      ph_output = 1 := by
    rw [count_map_substFun (by decide) (Ne.symm hi1),
        count_map_substFun (by decide) (Ne.symm hf2)]
    exact h3
  have e3 := substOne_eq_map o c3
  have c4 : (((t.map (substFun ph_ffmpeg f)).map (substFun ph_input i)).map
      (substFun ph_output o)).count ph_options = 1 := by
    rw [count_map_substFun (by decide) (Ne.symm ho1),
        count_map_substFun (by decide) (Ne.symm hi2),
        count_map_substFun (by decide) (Ne.symm hf3)]
    exact h4
  have e4 := substOne_eq_map (joinOptions opts) c4
  have hmaps : (((t.map (substFun ph_ffmpeg f)).map (substFun ph_input i)).map
      (substFun ph_output o)).map (substFun ph_options (joinOptions opts)) =
      t.map (spec_substitution f i o opts) := by
    rw [List.map_map, List.map_map, List.map_map]
    obtain ⟨d1, d2, d3, d4, d5, d6⟩ := ph_pairwise_ne
    have hfun : ((substFun ph_options (joinOptions opts) ∘ substFun ph_output o) ∘
        substFun ph_input i) ∘ substFun ph_ffmpeg f =
        spec_substitution f i o opts := by
      funext tok
      simp only [Function.comp_apply]
      by_cases t1 : tok = ph_ffmpeg
      · subst t1
        simp [substFun, spec_substitution, hf1, hf2, hf3]
      · by_cases t2 : tok = ph_input
        · subst t2
          simp [substFun, spec_substitution, Ne.symm d1, hi1, hi2]
        · by_cases t3 : tok = ph_output
          · subst t3
            simp [substFun, spec_substitution, Ne.symm d2, Ne.symm d4, ho1]
          · by_cases t4 : tok = ph_options
            · subst t4
              simp [substFun, spec_substitution, Ne.symm d3, Ne.symm d5,
                Ne.symm d6]
            · simp [substFun, spec_substitution, t1, t2, t3, t4]
    rw [hfun]
  refine ⟨?_, by simp⟩
  simp only [render, e1, Option.some_bind, e2, e3, e4]
  rw [hmaps]

/-- C5 counterexample: the default-shape template contains each placeholder
exactly once, yet resolving the ffmpeg path to the literal input-path
placeholder token makes the second index lookup hit the freshly substituted
slot: the original input-path placeholder at position 2 survives unreplaced,
and the ffmpeg slot does not end up holding its resolved value. -/
theorem c5_counterexample :
    ([ph_ffmpeg, "-i", ph_input, ph_options, ph_output].count ph_ffmpeg = 1 ∧
     [ph_ffmpeg, "-i", ph_input, ph_options, ph_output].count ph_input = 1 ∧
     [ph_ffmpeg, "-i", ph_input, ph_options, ph_output].count ph_output = 1 ∧
     [ph_ffmpeg, "-i", ph_input, ph_options, ph_output].count ph_options = 1) ∧
    render [ph_ffmpeg, "-i", ph_input, ph_options, ph_output]
        ph_input "in.mov" "o.mp4" [] =
      some ["in.mov", "-i", ph_input, "", "o.mp4"] ∧
    some ["in.mov", "-i", ph_input, "", "o.mp4"] ≠
      some ([ph_ffmpeg, "-i", ph_input, ph_options, ph_output].map
        (spec_substitution ph_input "in.mov" "o.mp4" [])) := by
  exact ⟨by decide, by decide, by decide⟩

/-- Witness for C5 at the default template and ordinary values. -/
theorem c5_render_pointwise_witness :
    render [ph_ffmpeg, "-i", ph_input, ph_options, ph_output]
        "/usr/bin/ffmpeg" "clip.mov" "/out/clip_light.mp4"
        [{ flag := "-cq", value := "32" }] =
      some ([ph_ffmpeg, "-i", ph_input, ph_options, ph_output].map
        (spec_substitution "/usr/bin/ffmpeg" "clip.mov" "/out/clip_light.mp4"
          [{ flag := "-cq", value := "32" }])) ∧
    ([ph_ffmpeg, "-i", ph_input, ph_options, ph_output].map
        (spec_substitution "/usr/bin/ffmpeg" "clip.mov" "/out/clip_light.mp4"
          [{ flag := "-cq", value := "32" }])).length =
      [ph_ffmpeg, "-i", ph_input, ph_options, ph_output].length :=
  c5_render_pointwise [ph_ffmpeg, "-i", ph_input, ph_options, ph_output]
    "/usr/bin/ffmpeg" "clip.mov" "/out/clip_light.mp4"
    [{ flag := "-cq", value := "32" }]
    (by decide) (by decide) (by decide) (by decide) (by decide) (by decide)
    (by decide) (by decide) (by decide) (by decide)

/-- C8 (amended): provided the resolved path values are not themselves
placeholder tokens substituted later, rendering raises (the uncaught
ValueError of the list.index lookup, modelled as `none`) exactly when some
placeholder token is absent from the template. -/
theorem c8_render_none_iff
    (t : List String) (f i o : String) (opts : List Opt)
    (hf1 : f ≠ ph_input) (hf2 : f ≠ ph_output) (hf3 : f ≠ ph_options)
    (hi1 : i ≠ ph_output) (hi2 : i ≠ ph_options)
    (ho1 : o ≠ ph_options) :
    render t f i o opts = none ↔
      ¬ (ph_ffmpeg ∈ t ∧ ph_input ∈ t ∧ ph_output ∈ t ∧ ph_options ∈ t) := by
  constructor
  · intro hn hall
    obtain ⟨m1, m2, m3, m4⟩ := hall
    obtain ⟨t1, e1⟩ :=
      Option.isSome_iff_exists.mp ((substOne_isSome ph_ffmpeg f t).mpr m1)
    have m2a : ph_input ∈ t1 := mem_substOne_preserve e1 m2 (by decide)
    obtain ⟨t2, e2⟩ :=
      Option.isSome_iff_exists.mp ((substOne_isSome ph_input i t1).mpr m2a)
    have m3a : ph_output ∈ t1 := mem_substOne_preserve e1 m3 (by decide)
    have m3b : ph_output ∈ t2 := mem_substOne_preserve e2 m3a (by decide)
    obtain ⟨t3, e3⟩ :=
      Option.isSome_iff_exists.mp ((substOne_isSome ph_output o t2).mpr m3b)
    have m4a : ph_options ∈ t1 := mem_substOne_preserve e1 m4 (by decide)
    have m4b : ph_options ∈ t2 := mem_substOne_preserve e2 m4a (by decide)
    have m4c : ph_options ∈ t3 := mem_substOne_preserve e3 m4b (by decide)
    obtain ⟨t4, e4⟩ := Option.isSome_iff_exists.mp
      ((substOne_isSome ph_options (joinOptions opts) t3).mpr m4c)
    have hs : render t f i o opts = some t4 := by
      simp only [render, e1, Option.some_bind, e2, e3, e4]
    rw [hs] at hn
    exact Option.noConfusion hn
  · intro hn
    by_contra hr
    apply hn
    obtain ⟨t4, e⟩ := Option.ne_none_iff_exists'.mp hr
    simp only [render] at e
    obtain ⟨t1, e1, eb⟩ := Option.bind_eq_some.mp e
    obtain ⟨t2, e2, ec⟩ := Option.bind_eq_some.mp eb
    obtain ⟨t3, e3, e4⟩ := Option.bind_eq_some.mp ec
    have m1 : ph_ffmpeg ∈ t := substOne_some_mem e1
    have m2 : ph_input ∈ t := by
      rcases mem_of_mem_substOne e1 (substOne_some_mem e2) with h | h
      · exact h
      · exact absurd h.symm hf1
    have m3 : ph_output ∈ t := by
      have h2 : ph_output ∈ t1 := by
        rcases mem_of_mem_substOne e2 (substOne_some_mem e3) with h | h
        · exact h
        · exact absurd h.symm hi1
      rcases mem_of_mem_substOne e1 h2 with h | h
      · exact h
      · exact absurd h.symm hf2
    have m4 : ph_options ∈ t := by
      have h3 : ph_options ∈ t2 := by
        rcases mem_of_mem_substOne e3 (substOne_some_mem e4) with h | h
        · exact h
        · exact absurd h.symm ho1
      have h2 : ph_options ∈ t1 := by
        rcases mem_of_mem_substOne e2 h3 with h | h
        · exact h
        · exact absurd h.symm hi2
      rcases mem_of_mem_substOne e1 h2 with h | h
      · exact h
      · exact absurd h.symm hf3
    exact ⟨m1, m2, m3, m4⟩

/-- C8 counterexample: a template from which the input-path placeholder is
absent, rendered with the ffmpeg path resolved to that very token, does not
raise: the substitution chain succeeds because the first assignment injects
the missing token into the list before the second lookup runs. -/
theorem c8_counterexample :
    ph_input ∉ [ph_ffmpeg, ph_options, ph_output] ∧
    render [ph_ffmpeg, ph_options, ph_output] ph_input "in.mov" "o.mp4" [] =
      some ["in.mov", "", "o.mp4"] := by
  exact ⟨by decide, by decide⟩

/-- Witness for C8: a template missing the output-path placeholder, with
ordinary values, makes rendering fail. -/
theorem c8_render_none_iff_witness :
    render [ph_ffmpeg, "-i", ph_input, ph_options] "/usr/bin/ffmpeg" "clip.mov"
      "/out/c.mp4" [] = none :=
  (c8_render_none_iff [ph_ffmpeg, "-i", ph_input, ph_options] "/usr/bin/ffmpeg"
    "clip.mov" "/out/c.mp4" []
    (by decide) (by decide) (by decide) (by decide) (by decide) (by decide)).mpr
    (by decide)

/-- C1 (code bug): with the configuration file absent but the argument
combination consistent and the freshly created default ffmpeg path present on
disk, the first check fails yet the exposed verdict is true and the main gate
lets the run continue. Every check assigns `self.result`, so the last
assignment wins: the verdict is the last check alone, not the conjunction of
the three checks the spec describes. -/
theorem c1_verdict_not_conjunction :
    check_config c1_env = false ∧
    check_args { hash := none, input_path := none } = true ∧
    check_ffmpeg_executable c1_env (load_config c1_env) = true ∧
    startup_result c1_env { hash := none, input_path := none } = true ∧
    startup_gate c1_env { hash := none, input_path := none } = none := by
  refine ⟨rfl, rfl, by decide, by decide, by decide⟩

/-- C3 (code bug): with a valid configuration and an existing ffmpeg path,
supplying `hash` alone makes `check_args` fail, yet the exposed verdict is
true because `check_ffmpeg_executable` overwrites `self.result` afterwards,
so the process does not abort as the claim requires. -/
theorem c3_args_failure_overridden :
    check_args { hash := some "deadbeef", input_path := none } = false ∧
    startup_result c3_env { hash := some "deadbeef", input_path := none } = true ∧
    startup_gate c3_env { hash := some "deadbeef", input_path := none } = none := by
  refine ⟨rfl, by decide, by decide⟩

/-- C6: scripted hash resolution scans the presets in configured order and
returns the first whose derived hash (the 8-character prefix of the digest of
its title) equals the supplied argument under exact, case-sensitive string
equality; when no preset matches, the run prints the diagnostic and exits with
status 1 without spawning any child process. Quantified over every digest
function, standing in for the external SHA-256 implementation. -/
theorem c6_hash_resolution (sha : String → String) (cfg : Config)
    (h input_path cwd : String) :
    (∀ cmd, choose_command_scripted sha cfg h = some cmd →
      preset_hash sha cmd.title = h ∧
      ∃ l1 l2, cfg.commands = l1 ++ cmd :: l2 ∧
        ∀ c ∈ l1, preset_hash sha c.title ≠ h) ∧
    (choose_command_scripted sha cfg h = none →
      (∀ c ∈ cfg.commands, preset_hash sha c.title ≠ h) ∧
      run_scripted sha cfg h input_path cwd =
        { spawned := [], exitCode := 1, messages := ["Hash not found."] }) := by
  constructor
  · intro cmd hc
    obtain ⟨hp, l1, l2, he, hall⟩ := find?_eq_some_first hc
    refine ⟨by simpa using hp, l1, l2, he, ?_⟩
    intro c hcl
    simpa using hall c hcl
  · intro hn
    constructor
    · intro c hc
      simpa using List.find?_eq_none.mp hn c hc
    · unfold run_scripted
      rw [hn]

/-- Witness for C6: with no presets configured, no preset matches and the
scripted run exits 1 after the diagnostic without spawning anything. -/
theorem c6_hash_resolution_witness :
    (∀ c ∈ empty_config.commands, preset_hash const_sha c.title ≠ "deadbeef") ∧
    run_scripted const_sha empty_config "deadbeef" "in.mov" "/out" =
      { spawned := [], exitCode := 1, messages := ["Hash not found."] } :=
  (c6_hash_resolution const_sha empty_config "deadbeef" "in.mov" "/out").2 rfl

/-- C2 counterexample: a preset whose template holds each of the four
placeholders exactly once but adds a literal extra token; scripted execution
hands the executor the fixed five-token vector, while rendering the preset's
template yields a six-token vector, so the two differ. -/
theorem c2_counterexample :
    (y_preset.command.count ph_ffmpeg = 1 ∧ y_preset.command.count ph_input = 1 ∧
     y_preset.command.count ph_output = 1 ∧ y_preset.command.count ph_options = 1) ∧
    choose_command_scripted const_sha y_config "aaaaaaaa" = some y_preset ∧
    (run_scripted const_sha y_config "aaaaaaaa" "in.mov" "/out").spawned =
      [["/usr/bin/ffmpeg", "-i", "in.mov", "-cq 32", "/out/in_x.mp4"]] ∧
    render y_preset.command "/usr/bin/ffmpeg" "in.mov" "/out/in_x.mp4"
        y_preset.options =
      some ["/usr/bin/ffmpeg", "-y", "-i", "in.mov", "-cq 32", "/out/in_x.mp4"] ∧
    (["/usr/bin/ffmpeg", "-i", "in.mov", "-cq 32", "/out/in_x.mp4"] :
        List String) ≠
      ["/usr/bin/ffmpeg", "-y", "-i", "in.mov", "-cq 32", "/out/in_x.mp4"] := by
  refine ⟨by decide, by decide, by decide, by decide, by decide⟩

/-- C2 (amended): in scripted mode the executor receives the fixed five-token
vector — ffmpeg path, "-i", input path, the joined options, the default output
path — regardless of the matched preset's command template; when that template
is exactly the default five-token shape and the resolved values are not later
placeholder tokens, this vector coincides with the TemplateEngine rendering. -/
theorem c2_scripted_vector (sha : String → String) (cfg : Config)
    (h input_path cwd : String) (cmd : Command)
    (hc : choose_command_scripted sha cfg h = some cmd) :
    (run_scripted sha cfg h input_path cwd).spawned =
      [[cfg.ffmpeg_path, "-i", input_path, joinOptions cmd.options,
        gen_output_path_scripted cwd cmd input_path]] ∧
    (cmd.command = [ph_ffmpeg, "-i", ph_input, ph_options, ph_output] →
     cfg.ffmpeg_path ≠ ph_input → cfg.ffmpeg_path ≠ ph_output →
     cfg.ffmpeg_path ≠ ph_options →
     input_path ≠ ph_output → input_path ≠ ph_options →
     render cmd.command cfg.ffmpeg_path input_path
         (gen_output_path_scripted cwd cmd input_path) cmd.options =
       some [cfg.ffmpeg_path, "-i", input_path, joinOptions cmd.options,
         gen_output_path_scripted cwd cmd input_path]) := by
  constructor
  · simp [run_scripted, hc]
  · intro he hf1 hf2 hf3 hi1 hi2
    rw [he]
    exact render_default_shape cfg.ffmpeg_path input_path
      (gen_output_path_scripted cwd cmd input_path) cmd.options
      hf1 hf2 hf3 hi1 hi2

/-- Witness for C2 at the Light preset, whose template has the default shape. -/
theorem c2_scripted_vector_witness :
    (run_scripted const_sha light_config "aaaaaaaa" "clip.mov" "/out").spawned =
      [[light_config.ffmpeg_path, "-i", "clip.mov", joinOptions light_preset.options,
        gen_output_path_scripted "/out" light_preset "clip.mov"]] ∧
    render light_preset.command light_config.ffmpeg_path "clip.mov"
        (gen_output_path_scripted "/out" light_preset "clip.mov")
        light_preset.options =
      some [light_config.ffmpeg_path, "-i", "clip.mov",
        joinOptions light_preset.options,
        gen_output_path_scripted "/out" light_preset "clip.mov"] :=
  have hc : choose_command_scripted const_sha light_config "aaaaaaaa" =
      some light_preset := by decide
  ⟨(c2_scripted_vector const_sha light_config "aaaaaaaa" "clip.mov" "/out"
      light_preset hc).1,
   (c2_scripted_vector const_sha light_config "aaaaaaaa" "clip.mov" "/out"
      light_preset hc).2 rfl (by decide) (by decide) (by decide) (by decide)
      (by decide)⟩

/-- C7: for every working directory, preset and input path, the default output
path is the current working directory joined with the input path's stem
followed by the preset's suffix and extension; in the concrete scenario
(Light preset, input clip.mov, cwd /out) the default path is
/out/clip_light.mp4 and the rendered argument vector is the expected five
tokens. -/
theorem c7_default_output_path :
    (∀ cwd cmd input_path, gen_output_path_scripted cwd cmd input_path =
      joinPath cwd ((splitext input_path).1 ++ cmd.output_filename_suffix ++
        cmd.output_extension)) ∧
    gen_output_path_scripted "/out" light_preset "clip.mov" =
      "/out/clip_light.mp4" ∧
    render light_preset.command "/usr/bin/ffmpeg" "clip.mov"
        "/out/clip_light.mp4" light_preset.options =
      some ["/usr/bin/ffmpeg", "-i", "clip.mov", "-cq 32",
        "/out/clip_light.mp4"] := by
  refine ⟨fun cwd cmd input_path => rfl, by decide, by decide⟩

/-- C9: at the final interactive confirmation the answer "n" spawns no child
process, reports "Aborted." and the run falls through to a normal exit with
status 0; the in-place template rewrite has still happened. -/
theorem c9_abort_on_n (cfg : Config) (cmd : Command) (input_path : String)
    (opts : List Opt) (output_path : String) (cl : List String)
    (hr : render cmd.command cfg.ffmpeg_path input_path output_path opts =
      some cl) :
    execute_command_interactive cfg cmd input_path opts output_path "n" =
      some { spawned := [], finalMessage := "Aborted.", exitCode := 0,
             presetAfter := { cmd with command := cl } } := by
  simp [execute_command_interactive, hr,
    show ("n" : String) ≠ "y" by decide]

/-- Witness for C9 at the Light preset. -/
theorem c9_abort_on_n_witness :
    execute_command_interactive light_config light_preset "clip.mov"
      light_preset.options "/out/clip_light.mp4" "n" =
      some { spawned := [], finalMessage := "Aborted.", exitCode := 0,
             presetAfter := { light_preset with command :=
               ["/usr/bin/ffmpeg", "-i", "clip.mov", "-cq 32",
                "/out/clip_light.mp4"] } } :=
  c9_abort_on_n light_config light_preset "clip.mov" light_preset.options
    "/out/clip_light.mp4"
    ["/usr/bin/ffmpeg", "-i", "clip.mov", "-cq 32", "/out/clip_light.mp4"]
    (by decide)

/-- C10: once the final confirmation is reached (the template renders), the
child is spawned exactly when the operator's answer is the exact string "y";
any other answer — including the empty string, "Y" or "yes" — spawns nothing
and reports "Aborted.". -/
theorem c10_spawn_iff_y (cfg : Config) (cmd : Command) (input_path : String)
    (opts : List Opt) (output_path : String) (choice : String)
    (ex : InteractiveExec)
    (he : execute_command_interactive cfg cmd input_path opts output_path
      choice = some ex) :
    (ex.spawned ≠ [] ↔ choice = "y") ∧
    (choice ≠ "y" → ex.spawned = [] ∧ ex.finalMessage = "Aborted.") ∧
    (choice = "y" → ex.spawned = [ex.presetAfter.command] ∧
      ex.finalMessage = "Done.") := by
  obtain ⟨cl, hr, hex⟩ := Option.map_eq_some'.mp he
  subst hex
  by_cases hy : choice = "y"
  · subst hy
    simp
  · simp [hy]

/-- Witness for C10 at the answer "Y", which is not accepted. -/
theorem c10_spawn_iff_y_witness :
    (c10_exec_result.spawned ≠ [] ↔ ("Y" : String) = "y") ∧
    (("Y" : String) ≠ "y" → c10_exec_result.spawned = [] ∧
      c10_exec_result.finalMessage = "Aborted.") ∧
    (("Y" : String) = "y" → c10_exec_result.spawned =
      [c10_exec_result.presetAfter.command] ∧
      c10_exec_result.finalMessage = "Done.") :=
  c10_spawn_iff_y light_config light_preset "clip.mov" light_preset.options
    "/out/clip_light.mp4" "Y" c10_exec_result (by decide)

/-- C4 counterexample: a complete interactive run on the default configuration
with no option edits and the execution refused still leaves the selected
preset's command template overwritten by the rendered vector — the
command_template sequence is not unchanged by Execute. -/
theorem c4_counterexample :
    (run_interactive "/out" default_config c4_script).map
        (fun r => r.1.commands.map Command.command) =
      some [["/usr/bin/ffmpeg", "-i", "clip.mov", "-cq 32 -c:v h264_nvenc",
             "/out/clip_light.mp4"]] ∧
    default_config.commands.map Command.command =
      [[ph_ffmpeg, "-i", ph_input, ph_options, ph_output]] ∧
    ([[ph_ffmpeg, "-i", ph_input, ph_options, ph_output]] :
        List (List String)) ≠
      [["/usr/bin/ffmpeg", "-i", "clip.mov", "-cq 32 -c:v h264_nvenc",
        "/out/clip_light.mp4"]] := by
  refine ⟨by decide, by decide, by decide⟩

/-- C4 (amended): a full interactive run never writes the configuration back
and mutates only the selected preset: the ffmpeg path, the number of presets
and every other preset are unchanged, and within the selected preset the
title, extension, suffix and the option flags are unchanged — the mutations
are confined to option values and (in interactive Execute) the in-place
overwrite of the command template with the rendered vector. -/
theorem c4_config_frame (cwd : String) (cfg : Config) (s : InteractiveScript)
    (cfg2 : Config) (ex : InteractiveExec)
    (h : run_interactive cwd cfg s = some (cfg2, ex)) :
    cfg2.ffmpeg_path = cfg.ffmpeg_path ∧
    cfg2.commands.length = cfg.commands.length ∧
    (∀ j, j ≠ s.choiceIdx → cfg2.commands.get? j = cfg.commands.get? j) ∧
    (∀ c0 c1, cfg.commands.get? s.choiceIdx = some c0 →
      cfg2.commands.get? s.choiceIdx = some c1 →
      c1.title = c0.title ∧ c1.output_extension = c0.output_extension ∧
      c1.output_filename_suffix = c0.output_filename_suffix ∧
      c1.options.map Opt.flag = c0.options.map Opt.flag) := by
  unfold run_interactive at h
  obtain ⟨cmd0, hg, h1⟩ := Option.bind_eq_some.mp h
  obtain ⟨opts, hm, h2⟩ := Option.bind_eq_some.mp h1
  obtain ⟨ex1, hex, hpair⟩ := Option.map_eq_some'.mp h2
  obtain ⟨cl, hr, hex1⟩ := Option.map_eq_some'.mp hex
  obtain ⟨he1, he2⟩ := Prod.mk.inj hpair
  subst he1
  subst he2
  refine ⟨rfl, List.length_set .., ?_, ?_⟩
  · intro j hj
    exact List.get?_set_ne _ _ (fun e => hj e.symm)
  · intro c0 c1 hc0 hc1
    have hlt : s.choiceIdx < cfg.commands.length := get?_some_lt hc0
    rw [List.get?_set_eq_of_lt _ hlt] at hc1
    obtain rfl := Option.some.inj hc1
    obtain rfl := Option.some.inj (hg ▸ hc0)
    subst hex1
    exact ⟨rfl, rfl, rfl, modify_options_flags s.edits _ _ hm⟩

/-- Witness for C4 at a concrete run that edits option 0 and executes. -/
theorem c4_config_frame_witness :
    c4_cfg_after.ffmpeg_path = default_config.ffmpeg_path ∧
    c4_cfg_after.commands.length = default_config.commands.length ∧
    (c4_preset_after.title = default_preset.title ∧
     c4_preset_after.output_extension = default_preset.output_extension ∧
     c4_preset_after.output_filename_suffix =
       default_preset.output_filename_suffix ∧
     c4_preset_after.options.map Opt.flag =
       default_preset.options.map Opt.flag) :=
  have h : run_interactive "/out" default_config c4_script_w =
      some (c4_cfg_after, c4_exec_after) := by decide
  have t := c4_config_frame "/out" default_config c4_script_w c4_cfg_after
    c4_exec_after h
  ⟨t.1, t.2.1, t.2.2.2 default_preset c4_preset_after (by decide) (by decide)⟩

end Kffmpeg
